import Mathlib

/-!
Verification of the rosella compiler pipeline.

Shallow embedding of the rosella source-to-shell compiler
(`rosella_lib/src/lexer.rs`, `parser.rs`, `compiler.rs`) together with
theorems settling the specification claims about the tokenizer, the
recursive-descent parser and the multi-target code generator.

Modelling conventions:
* Rust methods mutating `&mut self` become state-passing functions.
* Fallible Rust code (`Result<_, RosellaError>`) becomes `Except Err _`.
* A Rust panic (`todo!`, `unreachable!`, `expect`) is modelled as the
  distinguished outcome `Err.rustPanic msg`, carrying the message the Rust
  runtime would print.
* Input-consuming loops in the lexer and parser are written with an explicit
  fuel parameter; running out of fuel yields the distinguished artifact
  outcome `Err.outOfFuel`, which is distinct from every error the Rust code
  can produce, so no theorem can conflate the artifact with real behaviour.
  The top-level wrappers supply fuel that is ample for all inputs appearing
  in the theorems below.
* `f64` literal values are modelled as `Rat`; every numeric literal in the
  claims is a small integer, which `f64` represents exactly.
-/

namespace Rosella

/-- Modelled from the spec: the target-OS enumeration. `compiler.rs` imports
`OS` from the parser module and `main.rs` maps the CLI values Windows/Linux
onto it, but no file under `src/` contains its declaration; the spec lists
the target OS values as Windows and Linux (§6). -/
inductive OS where
  | Windows
  | Linux
deriving DecidableEq, Repr

/-- Target shell, from `compiler.rs` (`pub enum Shell`). -/
inductive Shell where
  | Batch
  | Bash
deriving DecidableEq, Repr

/-- Lexical tokens, from `lexer.rs` (`pub enum Token`). The `Number` payload
models the Rust `f64` as `Rat`. -/
inductive Token where
  | Function
  | Let
  | If
  | Else
  | With
  | While
  | Number (n : Rat)
  | String (s : String)
  | Identifier (s : String)
  | Assign
  | Plus
  | Minus
  | Multiply
  | Divide
  | Equal
  | NotEqual
  | LessThan
  | GreaterThan
  | LessThanEq
  | GreaterThanEq
  | RawInstruction
  | LParen
  | RParen
  | LBrace
  | RBrace
  | LBraceSquare
  | RBraceSquare
  | Comma
  | Semicolon
  | Comment
  | EOF
deriving DecidableEq, Repr

/-- Binary operators, from `parser.rs` (`pub enum BinaryOp`). -/
inductive BinaryOp where
  | Add
  | Subtract
  | Multiply
  | Divide
  | Equal
  | NotEqual
  | LessThan
  | LessThanEq
  | GreaterThan
  | GreaterThanEq
deriving DecidableEq, Repr

/-- Expression trees, from `parser.rs` (`pub enum Expr`). -/
inductive Expr where
  | Number (n : Rat)
  | String (s : String)
  | Identifier (s : String)
  | Binary (left : Expr) (operator : BinaryOp) (right : Expr)
  | Call (name : String) (args : List Expr)
deriving Repr

/-- Statement trees, from `parser.rs` (`pub enum Stmt`).

The `With` payload: `compiler.rs` matches `Stmt::With {os, body}` with `os`
of the enumeration type `OS` (it is passed by value to `compile_with_stmt`),
while the snapshot of `parser.rs` under `src/` still stores the raw tag
string; the compiler is the authority for the claims about `With`, so the
payload here is `OS` and the parser converts the tag identifier (see
`os_of_string`). -/
inductive Stmt where
  | Expression (e : Expr)
  | Let (variable_type : String) (name : String) (value : Expr)
  | If (condition_type : String) (condition : Expr)
       (then_branch : List Stmt) (else_branch : Option (List Stmt))
  | With (os : OS) (body : List Stmt)
  | While (condition_type : String) (condition : Expr) (body : List Stmt)
  | Function (name : String) (arguments : Option (List Expr)) (body : List Stmt)
  | RawInstruction (instructions : List Expr)
deriving Repr

/-- Errors, from `error.rs` (`pub enum RosellaError`). The `CompilerError`
variant is constructed throughout `compiler.rs` but missing from the `error.rs`
snapshot under `src/`; it is modelled from the spec's CompileError kind (§7),
carrying a message string like the other message-carrying variants. -/
inductive RosellaError where
  | InvalidPunctuation (c : Option Char)
  | InvalidToken (c : Option Char)
  | InvalidStatement (t : Token)
  | UnexpectedToken (expected : Token) (found : Token)
  | ParseError (msg : String)
  | CompilerError (msg : String)
deriving DecidableEq, Repr

/-- Outcomes of running a pipeline stage: a returned `RosellaError`, a Rust
panic (with the panic message), or the fuel artifact of the embedding. -/
inductive Err where
  | rosella (e : RosellaError)
  | rustPanic (msg : String)
  | outOfFuel
deriving DecidableEq, Repr

/-! ## Number parsing model

`lexer.rs` collects a run of digits and dots and parses it with
`str::parse::<f64>()`, falling back to `0.0` on failure. On digit-and-dot
strings `f64::from_str` succeeds exactly when there is at least one digit and
at most one dot; all numeric literals in the claims are small integers, which
`f64` represents exactly, so the value is modelled in `Rat`. -/

/-- Value of a (possibly empty) digit string. -/
def digits_value (s : List Char) : Nat :=
  s.foldl (fun a c => a * 10 + (c.toNat - Char.toNat '0')) 0

/-- Splitting a character run at the dots (the behaviour of
`s.splitOn(".")` on the digit-and-dot strings `read_number` collects). -/
def split_on_dot : List Char → List (List Char)
  | [] => [[]]
  | c :: rest =>
    match split_on_dot rest with
    | [] => [[c]]
    | grp :: grps => if c = '.' then [] :: grp :: grps else (c :: grp) :: grps

/-- Model of `str::parse::<f64>()` restricted to digit-and-dot strings:
`none` on the strings Rust rejects (empty, no digit, more than one dot). -/
def parse_f64 (s : String) : Option Rat :=
  match split_on_dot s.data with
  | [i] => if i.isEmpty then none else some (digits_value i : Nat)
  | [i, f] =>
      if i.isEmpty && f.isEmpty then none
      else some ((digits_value i : Rat) + (digits_value f : Rat) / (10 : Rat) ^ f.length)
  | _ => none

/-- Model of Rust's `f64` `Display` used by `{}` formatting and
`n.to_string()`: integral values print without a fractional part. The
rendering of non-integral values is approximated by the `Rat` rendering;
no claim exercises it. -/
def numToString (q : Rat) : String :=
  if q.den = 1 then toString q.num else toString q

/-- Rust `Debug` rendering of a `char`-option, as in
`InvalidPunctuation`/`InvalidToken` messages. Only used inside error
messages no claim inspects. -/
def charOptDebug : Option Char → String
  | none => "None"
  | some c => "Some(" ++ String.mk [Char.ofNat 39, c, Char.ofNat 39] ++ ")"

/-! ## Lexer (`lexer.rs`) -/

/-- Lexer state, from `lexer.rs` (`pub struct Lexer`); `current_character`
is derived from `input` and `position` rather than cached. -/
structure Lexer where
  input : List Char
  position : Nat
deriving Repr

/-- `Lexer::new` -/
def Lexer.new (input : String) : Lexer := ⟨input.data, 0⟩

/-- `self.current_character`, maintained by `Lexer::advance` as
`input.get(position).copied()`. -/
def Lexer.current_character (l : Lexer) : Option Char :=
  l.input.get? l.position

/-- `Lexer::advance` -/
def Lexer.advance (l : Lexer) : Lexer :=
  { l with position := l.position + 1 }

/-- Rust `char::is_ascii_whitespace`: space, tab, newline, carriage
return, form feed. -/
def is_ascii_whitespace (c : Char) : Bool :=
  c = ' ' || c = '\t' || c = '\n' || c = '\r' || c = Char.ofNat 12

/-- Rust `char::is_ascii_punctuation`. -/
def is_ascii_punctuation (c : Char) : Bool :=
  (33 ≤ c.toNat && c.toNat ≤ 47) || (58 ≤ c.toNat && c.toNat ≤ 64) ||
  (91 ≤ c.toNat && c.toNat ≤ 96) || (123 ≤ c.toNat && c.toNat ≤ 126)

/-- Rust `char::is_alphabetic`, restricted to ASCII (the Rust predicate is
Unicode-aware; every input in the claims is ASCII, where the two agree). -/
def is_alphabetic (c : Char) : Bool := c.isAlpha

/-- The digit-and-dot collection loop of `Lexer::read_number`. -/
def read_number_loop : Nat → Lexer → String → Except Err (String × Lexer)
  | 0, _, _ => .error .outOfFuel
  | fuel + 1, l, acc =>
    match l.current_character with
    | some ch =>
        if ch.isDigit || ch = '.' then read_number_loop fuel l.advance (acc.push ch)
        else .ok (acc, l)
    | none => .ok (acc, l)

/-- `Lexer::read_number`: collect digits and dots, parse as `f64`, fall back
to `0.0` on a malformed number (Rust logs to stderr, which has no
observable counterpart here). -/
def read_number (fuel : Nat) (l : Lexer) : Except Err (Rat × Lexer) := do
  let (string, l') ← read_number_loop fuel l ""
  match parse_f64 string with
  | some res => .ok (res, l')
  | none => .ok (0, l')

/-- The character-collection loop of `Lexer::read_string`: stops after
consuming a closing quote, or at end of input with no error. -/
def read_string_loop : Nat → Lexer → String → Except Err (String × Lexer)
  | 0, _, _ => .error .outOfFuel
  | fuel + 1, l, acc =>
    match l.current_character with
    | some ch =>
        if ch = '"' then .ok (acc, l.advance)
        else read_string_loop fuel l.advance (acc.push ch)
    | none => .ok (acc, l)

/-- `Lexer::read_string`: skip the opening quote, then collect until a
closing quote or end of input. -/
def read_string (fuel : Nat) (l : Lexer) : Except Err (String × Lexer) :=
  read_string_loop fuel l.advance ""

/-- The collection loop of `Lexer::read_identifer` (name as in the source). -/
def read_identifer_loop : Nat → Lexer → String → Except Err (String × Lexer)
  | 0, _, _ => .error .outOfFuel
  | fuel + 1, l, acc =>
    match l.current_character with
    | some ch =>
        if ch.isAlphanum || ch = '_' then read_identifer_loop fuel l.advance (acc.push ch)
        else .ok (acc, l)
    | none => .ok (acc, l)

/-- `Lexer::read_identifer` -/
def read_identifer (fuel : Nat) (l : Lexer) : Except Err (String × Lexer) :=
  read_identifer_loop fuel l ""

/-- `Lexer::determine_keyword` -/
def determine_keyword (text : String) : Token :=
  match text with
  | "fn" => .Function
  | "let" => .Let
  | "if" => .If
  | "else" => .Else
  | "with" => .With
  | "while" => .While
  | _ => .Identifier text

/-- The scan loop of `Lexer::consume_comment`: look for a `*` immediately
followed by `/`; reaching end of input without one is the error
`ParseError "Expected */ to end comment"`. On a `*` not followed by `/` the
loop resumes at the character after the `*`, as in the source. -/
def consume_comment_loop : Nat → Lexer → Except Err Lexer
  | 0, _ => .error .outOfFuel
  | fuel + 1, l =>
    match l.current_character with
    | some ch =>
        if ch = '*' then
          let l1 := l.advance
          if l1.current_character = some '/' then .ok l1.advance
          else consume_comment_loop fuel l1
        else consume_comment_loop fuel l.advance
    | none => .error (.rosella (.ParseError "Expected */ to end comment"))

/-- `Lexer::consume_comment`: first skip the initial `*` of the `/*` opener
(`self.advance()`), so the opener's own `*` can never pair with a following
`/` as a closer, then scan for `*/`. -/
def consume_comment (fuel : Nat) (l : Lexer) : Except Err Lexer :=
  consume_comment_loop fuel l.advance

/-- `Lexer::determine_punctuation`. The received `current_char` is the
character the caller was looking at; the method advances first and then
branches. Note the `>` arm performs a second `advance` before testing for
`=` (unlike the `<` arm), exactly as in the source. -/
def determine_punctuation (fuel : Nat) (l : Lexer) (current_char : Option Char) :
    Except Err (Token × Lexer) :=
  let l := l.advance
  match current_char with
  | some '=' =>
      if l.current_character = some '=' then .ok (.Equal, l.advance)
      else .ok (.Assign, l)
  | some '+' => .ok (.Plus, l)
  | some '-' => .ok (.Minus, l)
  | some '*' => .ok (.Multiply, l)
  | some '/' =>
      if l.current_character = some '*' then do
        let l' ← consume_comment fuel l
        .ok (.Comment, l')
      else .ok (.Divide, l)
  | some '<' =>
      if l.current_character = some '=' then .ok (.LessThanEq, l.advance)
      else .ok (.LessThan, l)
  | some '>' =>
      let l := l.advance
      if l.current_character = some '=' then .ok (.GreaterThanEq, l.advance)
      else .ok (.GreaterThan, l)
  | some '(' => .ok (.LParen, l)
  | some ')' => .ok (.RParen, l)
  | some '{' => .ok (.LBrace, l)
  | some '}' => .ok (.RBrace, l)
  | some '[' => .ok (.LBraceSquare, l)
  | some ']' => .ok (.RBraceSquare, l)
  | some ',' => .ok (.Comma, l)
  | some ';' => .ok (.Semicolon, l)
  | some _ => .error (.rosella (.InvalidPunctuation current_char))
  | none => .ok (.EOF, l)

/-- The main loop of `Lexer::tokenise`; `continue` branches do not push a
token. Only the punctuation branch can yield `Token.EOF` mid-input in the
source's `if token == Token::EOF` check (via `determine_punctuation` with
`None`, unreachable here), so the other token-producing branches push
directly. -/
def tokenise_loop : Nat → Lexer → List Token → Except Err (List Token)
  | 0, _, _ => .error .outOfFuel
  | fuel + 1, l, tokens =>
    match l.current_character with
    | some ch =>
        if ch = '\n' || ch = '\t' || ch = '\r' then tokenise_loop fuel l.advance tokens
        else if is_ascii_whitespace ch then tokenise_loop fuel l.advance tokens
        else if ch.isDigit then do
          let (n, l') ← read_number fuel l
          tokenise_loop fuel l' (tokens ++ [.Number n])
        else if is_alphabetic ch || ch = '_' then do
          let (ident, l') ← read_identifer fuel l
          tokenise_loop fuel l' (tokens ++ [determine_keyword ident])
        else if ch = '"' then do
          let (s, l') ← read_string fuel l
          tokenise_loop fuel l' (tokens ++ [.String s])
        else if ch = '!' then
          let l1 := l.advance
          if l1.current_character = some '=' then
            tokenise_loop fuel l1.advance (tokens ++ [.NotEqual])
          else tokenise_loop fuel l1 tokens
        else if ch = '|' then
          let l1 := l.advance
          if l1.current_character = some '>' then
            tokenise_loop fuel l1.advance (tokens ++ [.RawInstruction])
          else tokenise_loop fuel l1 tokens
        else if is_ascii_punctuation ch then do
          let (tok, l') ← determine_punctuation fuel l l.current_character
          if tok = .EOF then .ok (tokens ++ [tok])
          else tokenise_loop fuel l' (tokens ++ [tok])
        else .error (.rosella (.InvalidToken l.current_character))
    | none => .ok (tokens ++ [.EOF])

/-- `Lexer::tokenise`, run on a source string. The loop consumes at least one
character per iteration, so `length + 2` fuel is ample. -/
def tokenise (source : String) : Except Err (List Token) :=
  tokenise_loop (source.length + 2) (Lexer.new source) []

/-! ## Parser (`parser.rs`) -/

/-- Parser state, from `parser.rs` (`pub struct Parser`). -/
structure Parser where
  tokens : List Token
  position : Nat
deriving Repr

/-- `Parser::new` -/
def Parser.new (tokens : List Token) : Parser := ⟨tokens, 0⟩

/-- `Parser::current_token` (out of range yields `EOF`). -/
def Parser.current_token (p : Parser) : Token :=
  (p.tokens.get? p.position).getD .EOF

/-- `Parser::peek_previous` -/
def Parser.peek_previous (p : Parser) : Token :=
  if p.position > 0 then (p.tokens.get? (p.position - 1)).getD .EOF
  else .EOF

/-- `Parser::advance` (saturates at the end of the token list). -/
def Parser.advance (p : Parser) : Parser :=
  if p.position < p.tokens.length then { p with position := p.position + 1 }
  else p

/-- `Parser::expect_token` -/
def expect_token (p : Parser) (expected : Token) : Except Err Parser :=
  if p.current_token = expected then .ok p.advance
  else .error (.rosella (.UnexpectedToken expected p.current_token))

/-- `Parser::token_to_binary_op`. The fallthrough message uses the Rust
`Debug` rendering of the token; the fragment here covers the constructors
without payload, the only ones reachable from `binary_expression`. -/
def token_to_binary_op (token : Token) : Except Err BinaryOp :=
  match token with
  | .Equal => .ok .Equal
  | .NotEqual => .ok .NotEqual
  | .GreaterThan => .ok .GreaterThan
  | .GreaterThanEq => .ok .GreaterThanEq
  | .LessThan => .ok .LessThan
  | .LessThanEq => .ok .LessThanEq
  | .Plus => .ok .Add
  | .Minus => .ok .Subtract
  | .Multiply => .ok .Multiply
  | .Divide => .ok .Divide
  | t => .error (.rosella (.ParseError (toString (repr t) ++ " is not a valid binary operator")))

/-- The operator-precedence table passed by `Parser::parse_expression`. -/
def precedence_table : List (List Token) :=
  [[.Equal, .NotEqual],
   [.GreaterThan, .GreaterThanEq, .LessThan, .LessThanEq],
   [.Plus, .Minus],
   [.Multiply, .Divide]]

/-- Rust `Debug` rendering of a token, as interpolated into the
`"Unexpected token: {:?}"` parse error. Payload-free constructors print as
their names; the payload constructors are approximated. -/
def tokenDebug (t : Token) : String :=
  match t with
  | .Number n => "Number(" ++ numToString n ++ ")"
  | .String s => "String(\"" ++ s ++ "\")"
  | .Identifier s => "Identifier(\"" ++ s ++ "\")"
  | .Function => "Function"
  | .Let => "Let"
  | .If => "If"
  | .Else => "Else"
  | .With => "With"
  | .While => "While"
  | .Assign => "Assign"
  | .Plus => "Plus"
  | .Minus => "Minus"
  | .Multiply => "Multiply"
  | .Divide => "Divide"
  | .Equal => "Equal"
  | .NotEqual => "NotEqual"
  | .LessThan => "LessThan"
  | .GreaterThan => "GreaterThan"
  | .LessThanEq => "LessThanEq"
  | .GreaterThanEq => "GreaterThanEq"
  | .RawInstruction => "RawInstruction"
  | .LParen => "LParen"
  | .RParen => "RParen"
  | .LBrace => "LBrace"
  | .RBrace => "RBrace"
  | .LBraceSquare => "LBraceSquare"
  | .RBraceSquare => "RBraceSquare"
  | .Comma => "Comma"
  | .Semicolon => "Semicolon"
  | .Comment => "Comment"
  | .EOF => "EOF"

/-- Modelled from the spec: `parser.rs` stores the identifier after `with`
as a raw string, but `compiler.rs` consumes `Stmt::With` with an `OS`
payload; the conversion lives in the part of the repository missing from
`src/`. Following the spec's with-block description (§3, §6), the tag
identifiers `windows` and `linux` name the two target systems; any other
tag has no `OS` value and is modelled as a parse error. -/
def os_of_string (s : String) : Except Err OS :=
  match s with
  | "windows" => .ok .Windows
  | "linux" => .ok .Linux
  | _ => .error (.rosella (.ParseError ("Unknown OS: " ++ s)))

mutual

/-- The statement-collection loop of `Parser::parse`. -/
def parseLoop : Nat → Parser → List Stmt → Except Err (List Stmt × Parser)
  | 0, _, _ => .error .outOfFuel
  | fuel + 1, p, statements =>
    if p.current_token ≠ .EOF then do
      let (s, p') ← parse_stmt fuel p
      parseLoop fuel p' (statements ++ [s])
    else .ok (statements, p)

/-- `Parser::parse_stmt`: dispatch on the leading token, with the bare
expression statement as fallback. -/
def parse_stmt : Nat → Parser → Except Err (Stmt × Parser)
  | 0, _ => .error .outOfFuel
  | fuel + 1, p =>
    match p.current_token with
    | .Function => parse_fn_stmt fuel p
    | .Let => parse_let_stmt fuel p
    | .If => parse_if_stmt fuel p
    | .With => parse_with_stmt fuel p
    | .While => parse_while_stmt fuel p
    | .RawInstruction => parse_raw_stmt fuel p
    | _ => do
        let (expr, p') ← parse_expression fuel p
        .ok (.Expression expr, p')

/-- The `while current != RBrace` statement-collection loop that
`parse_fn_stmt`, `parse_if_stmt` (both branches), `parse_with_stmt` and
`parse_while_stmt` each contain inline in the source. -/
def parse_block : Nat → Parser → List Stmt → Except Err (List Stmt × Parser)
  | 0, _, _ => .error .outOfFuel
  | fuel + 1, p, body =>
    if p.current_token ≠ .RBrace then do
      let (s, p') ← parse_stmt fuel p
      parse_block fuel p' (body ++ [s])
    else .ok (body, p)

/-- `Parser::parse_fn_stmt` -/
def parse_fn_stmt : Nat → Parser → Except Err (Stmt × Parser)
  | 0, _ => .error .outOfFuel
  | fuel + 1, p => do
    let p ← expect_token p .Function
    let name ← match p.current_token with
      | .Identifier name => Except.ok name
      | _ => Except.error (.rosella (.ParseError "Expected identifer after 'fn'"))
    let p := p.advance
    let p ← expect_token p .LParen
    let (arguments, p) ← parse_arguments fuel p
    let p ← expect_token p .LBrace
    let (body, p) ← parse_block fuel p []
    let p ← expect_token p .RBrace
    .ok (.Function name (if arguments.isEmpty then none else some arguments) body, p)

/-- `Parser::parse_let_stmt` -/
def parse_let_stmt : Nat → Parser → Except Err (Stmt × Parser)
  | 0, _ => .error .outOfFuel
  | fuel + 1, p => do
    let p ← expect_token p .Let
    let variable_type ← match p.current_token with
      | .Identifier variable_type => Except.ok variable_type
      | _ => Except.error (.rosella (.ParseError "Expected identifer (for variable type) after 'let'"))
    let p := p.advance
    let name ← match p.current_token with
      | .Identifier name => Except.ok name
      | _ => Except.error (.rosella (.ParseError "Expected identifer after 'let'"))
    let p := p.advance
    let p ← expect_token p .Assign
    let (value, p) ← parse_expression fuel p
    let p ← expect_token p .Semicolon
    .ok (.Let variable_type name value, p)

/-- `Parser::parse_if_stmt`, including else-if chaining as a singleton
else-block. -/
def parse_if_stmt : Nat → Parser → Except Err (Stmt × Parser)
  | 0, _ => .error .outOfFuel
  | fuel + 1, p => do
    let p ← expect_token p .If
    let condition_type ← match p.current_token with
      | .Identifier condition_type => Except.ok condition_type
      | _ => Except.error (.rosella (.ParseError "Expected identifer (for comparison type) after 'if'"))
    let p := p.advance
    let p ← expect_token p .LParen
    let (condition, p) ← parse_expression fuel p
    let p ← expect_token p .RParen
    let p ← expect_token p .LBrace
    let (then_branch, p) ← parse_block fuel p []
    let p ← expect_token p .RBrace
    if p.current_token = .Else then
      let p := p.advance
      if p.current_token = .If then do
        let (elif, p) ← parse_if_stmt fuel p
        .ok (.If condition_type condition then_branch (some [elif]), p)
      else do
        let p ← expect_token p .LBrace
        let (else_branch, p) ← parse_block fuel p []
        let p ← expect_token p .RBrace
        .ok (.If condition_type condition then_branch (some else_branch), p)
    else
      .ok (.If condition_type condition then_branch none, p)

/-- `Parser::parse_with_stmt` (with the spec-modelled tag conversion
`os_of_string`, see there). -/
def parse_with_stmt : Nat → Parser → Except Err (Stmt × Parser)
  | 0, _ => .error .outOfFuel
  | fuel + 1, p => do
    let p ← expect_token p .With
    let os_name ← match p.current_token with
      | .Identifier os_name => Except.ok os_name
      | _ => Except.error (.rosella (.ParseError "Expected identifier after 'with'"))
    let os ← os_of_string os_name
    let p := p.advance
    let p ← expect_token p .LBrace
    let (body, p) ← parse_block fuel p []
    let p ← expect_token p .RBrace
    .ok (.With os body, p)

/-- `Parser::parse_while_stmt` -/
def parse_while_stmt : Nat → Parser → Except Err (Stmt × Parser)
  | 0, _ => .error .outOfFuel
  | fuel + 1, p => do
    let p ← expect_token p .While
    let condition_type ← match p.current_token with
      | .Identifier condition_type => Except.ok condition_type
      | _ => Except.error (.rosella (.ParseError "Expected identifer (for comparison type) after 'with'"))
    let p := p.advance
    let p ← expect_token p .LParen
    let (condition, p) ← parse_expression fuel p
    let p ← expect_token p .RParen
    let p ← expect_token p .LBrace
    let (body, p) ← parse_block fuel p []
    let p ← expect_token p .RBrace
    .ok (.While condition_type condition body, p)

/-- The expression-collection loop of `Parser::parse_raw_stmt`. -/
def parse_raw_loop : Nat → Parser → List Expr → Except Err (List Expr × Parser)
  | 0, _, _ => .error .outOfFuel
  | fuel + 1, p, instructions =>
    if p.current_token ≠ .Semicolon ∧ p.current_token ≠ .EOF then do
      let (e, p') ← parse_expression fuel p
      parse_raw_loop fuel p' (instructions ++ [e])
    else .ok (instructions, p)

/-- `Parser::parse_raw_stmt` -/
def parse_raw_stmt : Nat → Parser → Except Err (Stmt × Parser)
  | 0, _ => .error .outOfFuel
  | fuel + 1, p => do
    let p ← expect_token p .RawInstruction
    let (instructions, p) ← parse_raw_loop fuel p []
    let p ← expect_token p .Semicolon
    .ok (.RawInstruction instructions, p)

/-- `Parser::parse_expression`: precedence climbing from the lowest level. -/
def parse_expression : Nat → Parser → Except Err (Expr × Parser)
  | 0, _ => .error .outOfFuel
  | fuel + 1, p => binary_expression fuel precedence_table 0 p

/-- `Parser::binary_expression` -/
def binary_expression : Nat → List (List Token) → Nat → Parser → Except Err (Expr × Parser)
  | 0, _, _, _ => .error .outOfFuel
  | fuel + 1, precedence, level, p =>
    if level ≥ precedence.length then primary fuel p
    else do
      let (expr, p') ← binary_expression fuel precedence (level + 1) p
      bin_exp_loop fuel precedence ((precedence[level]?).getD []) level expr p'

/-- The same-level operator-consumption loop inside
`Parser::binary_expression`. -/
def bin_exp_loop : Nat → List (List Token) → List Token → Nat → Expr → Parser →
    Except Err (Expr × Parser)
  | 0, _, _, _, _, _ => .error .outOfFuel
  | fuel + 1, precedence, current_operators, level, expr, p =>
    if p.current_token ∈ current_operators then do
      let p1 := p.advance
      let operator ← token_to_binary_op p1.peek_previous
      let (right, p2) ← binary_expression fuel precedence (level + 1) p1
      bin_exp_loop fuel precedence current_operators level (.Binary expr operator right) p2
    else .ok (expr, p)

/-- `Parser::primary`. The source computes a primary result and then — only
when the previous token is an identifier and the current one is `(` —
discards it and commits to a call that must be terminated by `;`. Only the
identifier arm can leave the state in that shape (the `LParen` arm
propagates inner errors with `?` and ends on `RParen`, the literal arms end
on their literal, and the fallthrough arm does not advance and its current
token is not `(`), so the call check is folded into the identifier arm. -/
def primary : Nat → Parser → Except Err (Expr × Parser)
  | 0, _ => .error .outOfFuel
  | fuel + 1, p =>
    match p.current_token with
    | .Number n => .ok (.Number n, p.advance)
    | .String s => .ok (.String s, p.advance)
    | .Identifier name =>
        let p1 := p.advance
        if p1.current_token = .LParen then do
          let p2 := p1.advance
          let (args, p3) ← parse_arguments fuel p2
          let p4 ← expect_token p3 .Semicolon
          .ok (.Call name args, p4)
        else .ok (.Identifier name, p1)
    | .LParen => do
        let (expr, p1) ← parse_expression fuel p.advance
        let p2 ← expect_token p1 .RParen
        .ok (expr, p2)
    | t => .error (.rosella (.ParseError ("Unexpected token: " ++ tokenDebug t)))

/-- `Parser::parse_arguments`: empty list on an immediate `)`, otherwise
comma-separated expressions consuming the closing `)`. -/
def parse_arguments : Nat → Parser → Except Err (List Expr × Parser)
  | 0, _ => .error .outOfFuel
  | fuel + 1, p =>
    if p.current_token = .RParen then .ok ([], p.advance)
    else parse_args_loop fuel p []

/-- The argument-collection loop of `Parser::parse_arguments`. -/
def parse_args_loop : Nat → Parser → List Expr → Except Err (List Expr × Parser)
  | 0, _, _ => .error .outOfFuel
  | fuel + 1, p, arguments => do
    let (e, p') ← parse_expression fuel p
    let arguments := arguments ++ [e]
    match p'.current_token with
    | .Comma => parse_args_loop fuel p'.advance arguments
    | .RParen => .ok (arguments, p'.advance)
    | _ => .error (.rosella (.ParseError "Expected ',' or ')' after argument"))

end

/-- `Parser::parse`, run on a token list; the fuel bounds the call depth and
is ample for every input appearing in the theorems below. -/
def parse (tokens : List Token) : Except Err (List Stmt) :=
  match parseLoop (tokens.length + 64) (Parser.new tokens) [] with
  | .ok (statements, _) => .ok statements
  | .error e => .error e

/-! ## Generator (`compiler.rs`)

The statement and expression walks are mutually recursive through the
nested statement/expression trees; as in the lexer and parser they are
written with an explicit fuel parameter (structural in the fuel), and the
top-level `compile` supplies `sizeOf`-ample fuel. Rust `Debug` renderings
interpolated into error messages are approximated by the helpers below; no
claim inspects them. -/

/-- Rust `Debug` rendering of a `BinaryOp`. -/
def binOpDebug : BinaryOp → String
  | .Add => "Add"
  | .Subtract => "Subtract"
  | .Multiply => "Multiply"
  | .Divide => "Divide"
  | .Equal => "Equal"
  | .NotEqual => "NotEqual"
  | .LessThan => "LessThan"
  | .LessThanEq => "LessThanEq"
  | .GreaterThan => "GreaterThan"
  | .GreaterThanEq => "GreaterThanEq"

/-- Rust `Debug` rendering of a `Shell`. -/
def shellDebug : Shell → String
  | .Batch => "Batch"
  | .Bash => "Bash"

mutual

/-- Rust `Debug` rendering of an `Expr` (approximate; only interpolated into
`CompilerError` messages). -/
def exprDebug : Expr → String
  | .Number n => "Number(" ++ numToString n ++ ")"
  | .String s => "String(\"" ++ s ++ "\")"
  | .Identifier s => "Identifier(\"" ++ s ++ "\")"
  | .Binary left operator right =>
      "Binary \x7b left: " ++ exprDebug left ++ ", operator: " ++ binOpDebug operator ++
        ", right: " ++ exprDebug right ++ " \x7d"
  | .Call name args =>
      "Call \x7b name: \"" ++ name ++ "\", args: [" ++ exprDebugList args ++ "] \x7d"

/-- `Debug` rendering of an argument list. -/
def exprDebugList : List Expr → String
  | [] => ""
  | [e] => exprDebug e
  | e :: rest => exprDebug e ++ ", " ++ exprDebugList rest

end

/-- Compiler state, from `compiler.rs` (`pub struct Compiler`). -/
structure Compiler where
  statements : List Stmt
  position : Nat
  os : OS
  shell : Shell
deriving Repr

/-- `Compiler::new` -/
def Compiler.new (statements : List Stmt) (os : OS) (shell : Shell) : Compiler :=
  ⟨statements, 0, os, shell⟩

/-- `Compiler::current_statement`; the `expect` on a missing statement is a
panic. -/
def current_statement (c : Compiler) : Except Err Stmt :=
  match c.statements.get? c.position with
  | some s => .ok s
  | none => .error (.rustPanic "No current statement found")

/-- `Compiler::get_condition_type` -/
def get_condition_type (statement : Stmt) : Except Err String :=
  match statement with
  | .Let variable_type _ _ => .ok variable_type
  | .If condition_type _ _ _ => .ok condition_type
  | .While condition_type _ _ => .ok condition_type
  | _ => .error (.rosella (.CompilerError "No condition type found for operator formatting"))

/-- `Compiler::format_operator` (the `println!` diagnostics have no
observable counterpart). -/
def format_operator (c : Compiler) (operator : BinaryOp) (statement : Stmt) :
    Except Err String := do
  let condition_type ← get_condition_type statement
  match c.shell, condition_type, operator with
  | _, _, .Add => .ok "+"
  | _, _, .Subtract => .ok "-"
  | _, _, .Multiply => .ok "*"
  | _, _, .Divide => .ok "/"
  | .Bash, "str", .Equal => .ok "=="
  | .Bash, "str", .NotEqual => .ok "!="
  | .Bash, "str", .LessThan => .ok "<"
  | .Bash, "str", .GreaterThan => .ok ">"
  | .Bash, "int", .Equal => .ok "-eq"
  | .Bash, "int", .NotEqual => .ok "-ne"
  | .Bash, "int", .LessThan => .ok "-lt"
  | .Bash, "int", .GreaterThan => .ok "-gt"
  | .Bash, "int", .LessThanEq => .ok "-le"
  | .Bash, "int", .GreaterThanEq => .ok "-ge"
  | .Batch, "str", .Equal => .ok "=="
  | .Batch, "str", .NotEqual => .ok "!="
  | .Batch, "int", .Equal => .ok "EQU"
  | .Batch, "int", .NotEqual => .ok "NEQ"
  | .Batch, "int", .LessThan => .ok "LSS"
  | .Batch, "int", .GreaterThan => .ok "GTR"
  | .Batch, "int", .LessThanEq => .ok "LEQ"
  | .Batch, "int", .GreaterThanEq => .ok "GEQ"
  | _, _, _ =>
      .error (.rosella (.CompilerError ("Operator: " ++ binOpDebug operator ++ " for \"" ++
        condition_type ++ "\" on " ++ shellDebug c.shell ++ " is not implemented.")))

/-- The leaf-argument rendering repeated inline in `format_path`, the
`"path"` case and the `"exists"` case of `compile_std_function_call`
(identical in all three, including the error message). -/
def path_args_fold (os : OS) : List Expr → Except Err String
  | [] => .ok ""
  | arg :: rest => do
      let arg_str ← match arg with
        | .Identifier id => Except.ok ("$" ++ id)
        | .String s => Except.ok s
        | .Number n => Except.ok (numToString n)
        | _ => Except.error (.rosella (.CompilerError ("Unsupported argument type: " ++ exprDebug arg)))
      let sep := match os with
        | .Windows => "\\"
        | .Linux => "/"
      let r ← path_args_fold os rest
      .ok (sep ++ arg_str ++ r)

/-- `Compiler::format_path` -/
def format_path (os : OS) (args : List Expr) : Except Err String := do
  let body ← path_args_fold os args
  .ok ("\"" ++ body ++ "\"\n")

/-- The Bash argument loop of the `"print" | "echo"` case of
`compile_std_function_call`. -/
def print_echo_args_bash : List Expr → Except Err String
  | [] => .ok ""
  | arg :: rest => do
      let s ← match arg with
        | .String s => Except.ok s
        | .Identifier id => Except.ok ("$" ++ id)
        | .Number n => Except.ok (numToString n)
        | _ => Except.error (.rosella (.CompilerError ("Unsupported argument type in print/echo: " ++ exprDebug arg)))
      let r ← print_echo_args_bash rest
      .ok (s ++ r)

/-- The Batch argument loop of the `"print" | "echo"` case (identifiers get
a trailing space there, other kinds do not, as in the source). -/
def print_echo_args_batch : List Expr → Except Err String
  | [] => .ok ""
  | arg :: rest => do
      let s ← match arg with
        | .String s => Except.ok s
        | .Identifier id => Except.ok ("%%" ++ id ++ "%% ")
        | .Number n => Except.ok (numToString n)
        | _ => Except.error (.rosella (.CompilerError ("Unsupported argument type in print/echo: " ++ exprDebug arg)))
      let r ← print_echo_args_batch rest
      .ok (s ++ r)

/-- The Bash argument loop of the non-standard branch of
`Compiler::compile_function_call`. -/
def call_args_bash : List Expr → Except Err String
  | [] => .ok ""
  | arg :: rest => do
      let s ← match arg with
        | .Identifier id => Except.ok ("\"$" ++ id ++ "\" ")
        | .String str => Except.ok ("\"" ++ str ++ "\" ")
        | .Number n => Except.ok (numToString n ++ " ")
        | _ => Except.error (.rosella (.CompilerError ("Unsupported argument type in function call: " ++ exprDebug arg)))
      let r ← call_args_bash rest
      .ok (s ++ r)

/-- The standard-function allow-list of `Compiler::compile_function_call`. -/
def allowed_std_functions : List String :=
  ["cd", "print", "echo", "make_dir", "mkdir",
   "remove_dir", "rmdir", "remove", "del",
   "path", "copy", "cp", "move", "mv", "read",
   "exit", "exists"]

/-- The `"print" | "echo"` arm of `compile_std_function_call`. -/
def print_echo_case (c : Compiler) (args : List Expr) : Except Err String :=
  match args with
  | [] => .error (.rosella (.CompilerError "print/echo requires at least one argument"))
  | _ =>
    match c.shell with
    | .Bash => do
        let body ← print_echo_args_bash args
        .ok ("echo \"" ++ body ++ "\"\n")
    | .Batch => do
        let body ← print_echo_args_batch args
        .ok ("echo " ++ body ++ "\n")

/-- The `"make_dir" | "mkdir"` arm of `compile_std_function_call`. -/
def make_dir_case (c : Compiler) (args : List Expr) : Except Err String :=
  match args with
  | [] => .error (.rosella (.CompilerError "make_dir requires at least one argument"))
  | _ => do
      let p ← format_path c.os args
      .ok ((match c.shell with
        | .Bash => "mkdir -p "
        | .Batch => "mkdir ") ++ p)

/-- The `"remove_dir" | "rmdir"` arm of `compile_std_function_call`. -/
def remove_dir_case (c : Compiler) (args : List Expr) : Except Err String :=
  match args with
  | [] => .error (.rosella (.CompilerError "remove_dir requires at least one argument"))
  | _ => do
      let p ← format_path c.os args
      .ok ((match c.shell with
        | .Bash => "rmdir "
        | .Batch => "rmdir ") ++ p)

/-- The `"remove" | "del"` arm of `compile_std_function_call`. -/
def remove_case (c : Compiler) (args : List Expr) : Except Err String :=
  match args with
  | [] => .error (.rosella (.CompilerError "remove requires at least one argument"))
  | _ => do
      let p ← format_path c.os args
      .ok ((match c.shell with
        | .Bash => "rm -f "
        | .Batch => "del /Q ") ++ p)

/-- The `"read"` arm of `compile_std_function_call`. -/
def read_case (c : Compiler) (args : List Expr) : Except Err String :=
  match args with
  | [arg0, arg1] => do
      let prompt ← match arg0 with
        | .String s => Except.ok s
        | _ => Except.error (.rosella (.CompilerError "First argument of read must be a string"))
      let var_name ← match arg1 with
        | .Identifier id => Except.ok id
        | _ => Except.error (.rosella (.CompilerError "Second argument of read must be an identifier"))
      match c.shell with
      | .Bash => .ok ("read -p \"" ++ prompt ++ ": " ++ "\" " ++ var_name ++ " " ++ "\n")
      | .Batch => .ok ("set /p " ++ var_name ++ "=" ++ "\"" ++ prompt ++ ": \"" ++ "\n")
  | _ => .error (.rosella (.CompilerError "read requires exactly two arguments"))

/-- The `"exit"` arm of `compile_std_function_call`. -/
def exit_case (c : Compiler) (args : List Expr) : Except Err String :=
  match args with
  | [] => .error (.rosella (.CompilerError "exit requires an exit code argument"))
  | arg0 :: _ => do
      let exit_code ← match arg0 with
        | .Number n => Except.ok (numToString n)
        | _ => Except.error (.rosella (.CompilerError "First argument of exit must be a number"))
      match c.shell with
      | .Bash => .ok ("exit " ++ exit_code ++ "\n")
      | .Batch => .ok ("exit /b " ++ exit_code ++ "\n")

mutual

/-- `Compiler::compile_expr` (the `println!` diagnostic has no observable
counterpart). Note the operand strings and the operator are computed before
the shell/type dispatch, exactly as in the source, so their errors take
precedence over the Batch `todo!` panic. -/
def compile_expr : Nat → Compiler → Expr → Stmt → Except Err String
  | 0, _, _, _ => .error .outOfFuel
  | fuel + 1, c, e, parent_statement =>
    match e with
    | .Number n => .ok (numToString n)
    | .String s => .ok ("\"" ++ s ++ "\"")
    | .Identifier id =>
        (match c.shell with
        | .Batch => .ok ("%%" ++ id ++ "%%")
        | .Bash => .ok ("$" ++ id))
    | .Binary left operator right => do
        let left_str ← compile_expr fuel c left parent_statement
        let operator_str ← format_operator c operator parent_statement
        let right_str ← compile_expr fuel c right parent_statement
        let condition_type ← get_condition_type parent_statement
        match c.shell, condition_type with
        | .Bash, "int" =>
            (match operator with
            | .Add | .Subtract | .Multiply | .Divide =>
                .ok ("$((" ++ left_str ++ " " ++ operator_str ++ " " ++ right_str ++ "))")
            | _ => .ok (left_str ++ " " ++ operator_str ++ " " ++ right_str))
        | .Bash, "str" => .ok ("\"" ++ left_str ++ right_str ++ "\"")
        | _, _ =>
            .error (.rustPanic "not yet implemented: Batch shell compilation for binary expressions not implemented yet")
    | .Call name args => compile_function_call fuel c name args

/-- `Compiler::compile_function_call`: allow-listed names go to the standard
translation; other names are emitted literally for Bash and hit the bare
`todo!()` panic for Batch. -/
def compile_function_call : Nat → Compiler → String → List Expr → Except Err String
  | 0, _, _, _ => .error .outOfFuel
  | fuel + 1, c, name, args =>
    if name ∈ allowed_std_functions then compile_std_function_call fuel c name args
    else
      match c.shell with
      | .Batch => .error (.rustPanic "not yet implemented")
      | .Bash => do
          let args_str ← call_args_bash args
          .ok (name ++ " " ++ args_str ++ "\n")

/-- The `path()`-argument loop shared textually by the `"copy" | "cp"` and
`"move" | "mv"` cases; `who` is the `copy/cp` or `move/mv` prefix of the
respective error message. -/
def compile_path_call_args : Nat → Compiler → String → List Expr → Except Err String
  | 0, _, _, _ => .error .outOfFuel
  | fuel + 1, c, who, args =>
    match args with
    | [] => .ok ""
    | arg :: rest => do
        let arg_str ← match arg with
          | .Call name args =>
              if name = "path" then compile_function_call fuel c name args
              else Except.error (.rosella (.CompilerError (who ++ " requires path() as argument, not: " ++ exprDebug arg)))
          | _ => Except.error (.rosella (.CompilerError (who ++ " requires path() as argument, not: " ++ exprDebug arg)))
        let r ← compile_path_call_args fuel c who rest
        .ok (arg_str ++ r)

/-- `Compiler::compile_std_function_call`. The Rust length/emptiness checks
followed by indexing are rendered as list matches with the same error on the
failing shapes; the non-recursive arms live in the named `_case` helpers
above. -/
def compile_std_function_call : Nat → Compiler → String → List Expr → Except Err String
  | 0, _, _, _ => .error .outOfFuel
  | _fuel + 1, c, "cd", args =>
      (match args with
      | [] => .error (.rosella (.CompilerError "cd requires a directory argument"))
      | _ => do
          let p ← format_path c.os args
          .ok ("cd " ++ p))
  | _fuel + 1, c, "print", args => print_echo_case c args
  | _fuel + 1, c, "echo", args => print_echo_case c args
  | _fuel + 1, c, "make_dir", args => make_dir_case c args
  | _fuel + 1, c, "mkdir", args => make_dir_case c args
  | _fuel + 1, c, "remove_dir", args => remove_dir_case c args
  | _fuel + 1, c, "rmdir", args => remove_dir_case c args
  | _fuel + 1, c, "remove", args => remove_case c args
  | _fuel + 1, c, "del", args => remove_case c args
  | _fuel + 1, c, "path", args =>
      (match args with
      | [] => .error (.rosella (.CompilerError "path requires at least one argument"))
      | _ => do
          let body ← path_args_fold c.os args
          .ok ("\"" ++ body ++ "\" "))
  | fuel + 1, c, "copy", args => copy_case fuel c args
  | fuel + 1, c, "cp", args => copy_case fuel c args
  | fuel + 1, c, "move", args => move_case fuel c args
  | fuel + 1, c, "mv", args => move_case fuel c args
  | _fuel + 1, c, "read", args => read_case c args
  | _fuel + 1, c, "exit", args => exit_case c args
  | _fuel + 1, c, "exists", args =>
      (match args with
      | [] => .error (.rosella (.CompilerError "exists requires a file path argument"))
      | _ => do
          let body ← path_args_fold c.os args
          .ok ("-e " ++ "\"" ++ body ++ "\""))
  | _fuel + 1, _, name, _ =>
      .error (.rustPanic ("internal error: entered unreachable code: Standard function call compilation not implemented for: " ++ name))

/-- The `"copy" | "cp"` arm of `compile_std_function_call`. -/
def copy_case : Nat → Compiler → List Expr → Except Err String
  | 0, _, _ => .error .outOfFuel
  | fuel + 1, c, args =>
    if args.length ≠ 2 then
      .error (.rosella (.CompilerError "copy/cp requires exactly two arguments"))
    else do
      let body ← compile_path_call_args fuel c "copy/cp" args
      .ok ((match c.shell with
        | .Bash => "cp "
        | .Batch => "copy ") ++ body ++ "\n")

/-- The `"move" | "mv"` arm of `compile_std_function_call`. -/
def move_case : Nat → Compiler → List Expr → Except Err String
  | 0, _, _ => .error .outOfFuel
  | fuel + 1, c, args =>
    if args.length ≠ 2 then
      .error (.rosella (.CompilerError "move/mv requires exactly two arguments"))
    else do
      let body ← compile_path_call_args fuel c "move/mv" args
      .ok ((match c.shell with
        | .Bash => "mv "
        | .Batch => "move ") ++ body ++ "\n")

end

/-- The body loop of `Compiler::compile_raw_instruction`;
`current_statement` is re-read for each component, as in the source. -/
def raw_instruction_fold (fuel : Nat) (c : Compiler) : List Expr → Except Err String
  | [] => .ok ""
  | instruction :: rest => do
      let s ← match instruction with
        | .String s => Except.ok ("\"" ++ s ++ "\" ")
        | .Identifier s => Except.ok (s ++ " ")
        | .Binary left operator right => do
            let cur1 ← current_statement c
            let left_str ← compile_expr fuel c left cur1
            let cur2 ← current_statement c
            let operator_str ← format_operator c operator cur2
            let cur3 ← current_statement c
            let right_str ← compile_expr fuel c right cur3
            Except.ok (left_str ++ " " ++ operator_str ++ " " ++ right_str ++ " ")
        | .Number n => Except.ok (numToString n ++ " ")
        | _ => Except.error (.rosella (.CompilerError ("Unsupported raw instruction: " ++ exprDebug instruction)))
      let r ← raw_instruction_fold fuel c rest
      .ok (s ++ r)

/-- `Compiler::compile_raw_instruction` -/
def compile_raw_instruction (fuel : Nat) (c : Compiler) (instructions : List Expr) :
    Except Err String := do
  let out ← raw_instruction_fold fuel c instructions
  .ok (out ++ "\n")

/-- `Compiler::compile_let_stmt` -/
def compile_let_stmt (fuel : Nat) (c : Compiler) (name : String) (value : Expr)
    (parent_statement : Stmt) : Except Err String :=
  match c.shell with
  | .Batch => do
      let value_str ← compile_expr fuel c value parent_statement
      .ok ("set " ++ name ++ "=" ++ value_str ++ "\n")
  | .Bash => do
      let value_str ← compile_expr fuel c value parent_statement
      .ok (name ++ "=" ++ value_str ++ "\n")

/-- The positional-locals loop of the Bash arm of
`Compiler::compile_function`; `index` is the running `enumerate` index. -/
def function_locals_bash : List Expr → Nat → Except Err String
  | [], _ => .ok ""
  | arg :: rest, index => do
      let arg_str ← match arg with
        | .Identifier id => Except.ok id
        | _ => Except.error (.rosella (.CompilerError "Function arguments must be identifiers"))
      let r ← function_locals_bash rest (index + 1)
      .ok ("local " ++ arg_str ++ "=$" ++ toString (index + 1) ++ "\n" ++ r)

mutual

/-- `Compiler::compile_statement` -/
def compile_statement : Nat → Compiler → Stmt → Except Err String
  | 0, _, _ => .error .outOfFuel
  | fuel + 1, c, statement =>
    match statement with
    | .Let _ name value => compile_let_stmt fuel c name value statement
    | .If _ condition then_branch else_branch =>
        compile_if_stmt fuel c condition then_branch else_branch statement
    | .With os body => compile_with_stmt fuel c os body
    | .While _ condition body => compile_while_stmt fuel c condition body statement
    | .Function name arguments body => compile_function fuel c name arguments body
    | .Expression expr =>
        (match expr with
        | .Call name args => compile_function_call fuel c name args
        | _ => .error (.rosella (.CompilerError "Expression is not a function call")))
    | .RawInstruction instructions => compile_raw_instruction fuel c instructions

/-- The `for stmt in body`/`push_str` accumulation that every block-bodied
construct of `compiler.rs` contains inline: compile each statement in order
and concatenate, stopping at the first error. -/
def compileSeq : Nat → Compiler → List Stmt → Except Err String
  | 0, _, _ => .error .outOfFuel
  | fuel + 1, c, body =>
    match body with
    | [] => .ok ""
    | stmt :: rest => do
        let s ← compile_statement fuel c stmt
        let r ← compileSeq fuel c rest
        .ok (s ++ r)

/-- `Compiler::compile_if_stmt` -/
def compile_if_stmt : Nat → Compiler → Expr → List Stmt → Option (List Stmt) → Stmt →
    Except Err String
  | 0, _, _, _, _, _ => .error .outOfFuel
  | fuel + 1, c, condition, then_branch, else_branch, parent_statement => do
    let condition_str ← compile_expr fuel c condition parent_statement
    match c.shell with
    | .Batch => do
        let then_str ← compileSeq fuel c then_branch
        match else_branch with
        | some eb => do
            let else_str ← compileSeq fuel c eb
            .ok ("if " ++ condition_str ++ " (\n" ++ then_str ++ ") else (\n" ++ else_str ++ ")\n")
        | none => .ok ("if " ++ condition_str ++ " (\n" ++ then_str ++ ")\n")
    | .Bash => do
        let then_str ← compileSeq fuel c then_branch
        match else_branch with
        | some eb => do
            let else_str ← compileSeq fuel c eb
            .ok ("if [[ " ++ condition_str ++ " ]]; then\n" ++ then_str ++ "else\n" ++ else_str ++ "fi\n")
        | none => .ok ("if [[ " ++ condition_str ++ " ]]; then\n" ++ then_str ++ "fi\n")

/-- `Compiler::compile_with_stmt`: the body is compiled only when the
declared tag equals the configured target OS; every other pairing falls
through to the empty output. -/
def compile_with_stmt : Nat → Compiler → OS → List Stmt → Except Err String
  | 0, _, _, _ => .error .outOfFuel
  | fuel + 1, c, os, body =>
    match c.os, os with
    | .Windows, .Windows => compileSeq fuel c body
    | .Linux, .Linux => compileSeq fuel c body
    | _, _ => .ok ""

/-- `Compiler::compile_while_stmt` -/
def compile_while_stmt : Nat → Compiler → Expr → List Stmt → Stmt → Except Err String
  | 0, _, _, _, _ => .error .outOfFuel
  | fuel + 1, c, condition, body, parent_statement => do
    let condition_str ← compile_expr fuel c condition parent_statement
    match c.shell with
    | .Batch => do
        let body_str ← compileSeq fuel c body
        .ok (":while " ++ condition_str ++ " (\n" ++ body_str ++ ")\n")
    | .Bash => do
        let body_str ← compileSeq fuel c body
        .ok ("while [[ " ++ condition_str ++ " ]]; do\n" ++ body_str ++ "done\n")

/-- `Compiler::compile_function`: the Batch arm is the
`todo!("Batch shell compilation for functions not implemented yet")` panic. -/
def compile_function : Nat → Compiler → String → Option (List Expr) → List Stmt →
    Except Err String
  | 0, _, _, _, _ => .error .outOfFuel
  | fuel + 1, c, name, args, body =>
    match c.shell with
    | .Batch => .error (.rustPanic "not yet implemented: Batch shell compilation for functions not implemented yet")
    | .Bash => do
        let locals ← match args with
          | some arguments => function_locals_bash arguments 0
          | none => Except.ok ""
        let body_str ← compileSeq fuel c body
        .ok (name ++ "() \x7b\n" ++ locals ++ body_str ++ "\x7d\n")

end

/-- The position loop of `Compiler::compile`. -/
def compileLoop : Nat → Compiler → Except Err String
  | 0, _ => .error .outOfFuel
  | fuel + 1, c =>
    if c.position < c.statements.length then do
      let s ← current_statement c
      let out ← compile_statement fuel c s
      let rest ← compileLoop fuel { c with position := c.position + 1 }
      .ok (out ++ rest)
    else .ok ""

/-- `Compiler::compile`. Every traversal step descends the statement trees
or moves to a later top-level statement, so the call depth is bounded by the
program size; the fixed fuel below covers every program whose total node
count is below a million, in particular every input in the theorems, and
exhaustion is the distinguished `outOfFuel` artifact. -/
def compile (c : Compiler) : Except Err String :=
  compileLoop 1000000 c

/-- `Compiler::new(...).compile()`, as the CLI drives it. -/
def compileProgram (statements : List Stmt) (os : OS) (shell : Shell) : Except Err String :=
  compile (Compiler.new statements os shell)

/-! ## Claims about the tokenizer -/

/-- C5: the claim says `<` and `>` each become the `-or-equal` token exactly
when immediately followed by `=`, consuming two characters, and the plain
token consuming one character otherwise. The `<` arm behaves as claimed, but
the `>` arm of `determine_punctuation` advances a second time before testing
for `=`: `">="` yields `GreaterThan` and consumes both characters, `">1"`
consumes and drops the `1`, and `GreaterThanEq` arises only from
three-character shapes such as `">a="`. This contradicts the token's own
documentation (`GreaterThanEq // >=`) and the symmetric `<` arm. -/
theorem greater_than_lexing_divergence :
    tokenise "<" = .ok [.LessThan, .EOF] ∧
    tokenise "<=" = .ok [.LessThanEq, .EOF] ∧
    tokenise ">=" = .ok [.GreaterThan, .EOF] ∧
    tokenise ">1" = .ok [.GreaterThan, .EOF] ∧
    tokenise ">a=" = .ok [.GreaterThanEq, .EOF] := by
  refine ⟨?_, ?_, ?_, ?_, ?_⟩ <;> rfl

/-- C6 counterexample: a double-quoted string with no closing quote before
end of input does not produce a lex-stage error; `tokenise` accepts it and
returns the remaining text as a `String` token. -/
theorem unterminated_string_accepted_counterexample :
    tokenise "\"abc" = .ok [.String "abc", .EOF] := by rfl

/-- C6 (amended): an unterminated `/*` block comment yields the lex-stage
error `ParseError "Expected */ to end comment"`; in particular the bare
opener `"/*/"` is unterminated — `consume_comment` skips the opener's `*`
first, so that `*` never pairs with the following `/` as a closer. An
unterminated double-quoted string is accepted without error, the `String`
token holding all characters up to end of input. -/
theorem unterminated_comment_errors_string_accepted :
    tokenise "/*abc" = .error (.rosella (.ParseError "Expected */ to end comment")) ∧
    tokenise "/*/" = .error (.rosella (.ParseError "Expected */ to end comment")) ∧
    tokenise "\"abc" = .ok [.String "abc", .EOF] ∧
    tokenise "let x /* y" = .error (.rosella (.ParseError "Expected */ to end comment")) := by
  refine ⟨?_, ?_, ?_, ?_⟩ <;> rfl

/-! ## Claims about the parser -/

/-- C8: tokenizing and parsing `"2 + 3 == 5"` produces
`Binary{Binary{2, Add, 3}, Equal, 5}`, so the additive level binds tighter
than the equality level; and a same-level chain such as `1 - 2 - 3`
associates to the left. -/
theorem additive_binds_tighter_left_assoc :
    tokenise "2 + 3 == 5" = .ok [.Number 2, .Plus, .Number 3, .Equal, .Number 5, .EOF] ∧
    parse [.Number 2, .Plus, .Number 3, .Equal, .Number 5, .EOF] =
      .ok [.Expression (.Binary (.Binary (.Number 2) .Add (.Number 3)) .Equal (.Number 5))] ∧
    parse [.Number 1, .Minus, .Number 2, .Minus, .Number 3, .EOF] =
      .ok [.Expression (.Binary (.Binary (.Number 1) .Subtract (.Number 2)) .Subtract (.Number 3))] := by
  refine ⟨?_, ?_, ?_⟩ <;> rfl

/-- C9: a call expression (identifier followed by a parenthesized argument
list) parses only when a semicolon immediately follows its closing paren:
whatever single token follows instead, and whatever comes after that token,
the parse fails with `UnexpectedToken(Semicolon, found)`; with the semicolon
present the call parses; and a call nested as a function argument fails the
same way on the enclosing call's `)`. -/
theorem call_requires_trailing_semicolon :
    (∀ (name : String) (t : Token) (rest : List Token), t ≠ .Semicolon →
      parse ([.Identifier name, .LParen, .RParen, t] ++ rest) =
        .error (.rosella (.UnexpectedToken .Semicolon t))) ∧
    (∀ name : String,
      parse [.Identifier name, .LParen, .RParen, .Semicolon] =
        .ok [.Expression (.Call name [])]) ∧
    parse [.Identifier "g", .LParen, .Identifier "f", .LParen, .RParen, .RParen, .Semicolon] =
      .error (.rosella (.UnexpectedToken .Semicolon .RParen)) := by
  refine ⟨?_, ?_, ?_⟩
  · intro name t rest h
    cases t
    case Semicolon => exact absurd rfl h
    all_goals rfl
  · intro name
    rfl
  · rfl

/-- Witness for C9 at concrete inputs: a call used as an operand of `+`
fails on the `+`, and a call directly followed by `;` parses. -/
theorem call_requires_trailing_semicolon_witness :
    parse [.Identifier "f", .LParen, .RParen, .Plus, .Number 1, .EOF] =
      .error (.rosella (.UnexpectedToken .Semicolon .Plus)) ∧
    parse [.Identifier "f", .LParen, .RParen, .Semicolon] =
      .ok [.Expression (.Call "f" [])] :=
  ⟨call_requires_trailing_semicolon.1 "f" .Plus [.Number 1, .EOF] (by decide),
   call_requires_trailing_semicolon.2.1 "f"⟩


/-! ## Claims about the generator -/

/-- `Except` bind on a success value, for rewriting compilation pipelines. -/
theorem except_bind_ok {α β : Type} (a : α) (f : α → Except Err β) :
    (Except.ok a >>= f) = f a := rfl

/-- `Except` bind on an error, for rewriting compilation pipelines. -/
theorem except_bind_error {α β : Type} (e : Err) (f : α → Except Err β) :
    ((Except.error e : Except Err α) >>= f) = .error e := rfl

/-- If the first top-level statement fails to compile, `compileLoop`
propagates exactly that error and compiles nothing further. -/
theorem compile_cons_error (fuel : Nat) (hd : Stmt) (rest : List Stmt) (os : OS)
    (sh : Shell) (e : Err)
    (h : compile_statement fuel ⟨hd :: rest, 0, os, sh⟩ hd = .error e) :
    compileLoop (fuel + 1) ⟨hd :: rest, 0, os, sh⟩ = .error e := by
  have hpos : (0 : Nat) < (hd :: rest).length := Nat.succ_pos rest.length
  simp only [compileLoop]
  rw [if_pos hpos]
  rw [show current_statement ⟨hd :: rest, 0, os, sh⟩ = Except.ok hd from rfl]
  rw [except_bind_ok, h, except_bind_error]

/-- C1 counterexample: compiling a Batch-target binary expression does not
return a `CompilerError` result; the generator dies in the `todo!` panic
(`Err.rustPanic`, a different outcome than any returned `RosellaError`). -/
theorem batch_binary_compile_is_panic_not_compiler_error :
    compileProgram [.Let "int" "x" (.Binary (.Identifier "a") .Add (.Identifier "b"))] .Windows .Batch =
      .error (.rustPanic "not yet implemented: Batch shell compilation for binary expressions not implemented yet") := by
  rfl

/-- C1 (amended): for each construct with no Batch translation — a binary
expression, a function declaration, or a non-standard bare call — reaching
the construct aborts generation immediately through the corresponding
`todo!()` panic, whatever statements follow; no partially-wrong output is
ever returned (the result is the panic, never `ok`), but the abort is a
panic, not a returned `CompilerError`. -/
theorem unimplemented_batch_constructs_panic :
    (∀ (x a b : String) (rest : List Stmt) (os : OS),
      compileProgram (.Let "int" x (.Binary (.Identifier a) .Add (.Identifier b)) :: rest) os .Batch =
        .error (.rustPanic "not yet implemented: Batch shell compilation for binary expressions not implemented yet")) ∧
    (∀ (name : String) (args : Option (List Expr)) (body rest : List Stmt) (os : OS),
      compileProgram (.Function name args body :: rest) os .Batch =
        .error (.rustPanic "not yet implemented: Batch shell compilation for functions not implemented yet")) ∧
    (∀ (name : String), name ∉ allowed_std_functions → ∀ (args : List Expr) (rest : List Stmt) (os : OS),
      compileProgram (.Expression (.Call name args) :: rest) os .Batch =
        .error (.rustPanic "not yet implemented")) := by
  refine ⟨?_, ?_, ?_⟩
  · intro x a b rest os
    exact compile_cons_error 999999 _ rest os .Batch _ rfl
  · intro name args body rest os
    exact compile_cons_error 999999 _ rest os .Batch _ rfl
  · intro name h args rest os
    have hcall : compile_function_call 999998
        ⟨.Expression (.Call name args) :: rest, 0, os, .Batch⟩ name args =
        .error (.rustPanic "not yet implemented") := by
      simp only [compile_function_call]
      rw [if_neg h]
    exact compile_cons_error 999999 _ rest os .Batch _ hcall

/-- Witness for C1 at a concrete input: the bare call `foo()` is not in the
allow-list, and its Batch compilation is the bare `todo!()` panic. -/
theorem unimplemented_batch_constructs_panic_witness :
    compileProgram [.Expression (.Call "foo" [])] .Windows .Batch =
      .error (.rustPanic "not yet implemented") :=
  unimplemented_batch_constructs_panic.2.2 "foo" (by decide) [] [] .Windows

/-- C2 counterexample: compiling `x < y` under an int tag to the Batch shell
does not emit `%%x%% LSS %%y%%`; `compile_expr` aborts in the Batch
binary-expression `todo!` panic before emitting anything. -/
theorem batch_less_than_fragment_counterexample :
    compile_expr 1000 ⟨[], 0, .Windows, .Batch⟩
        (.Binary (.Identifier "x") .LessThan (.Identifier "y")) (.Let "int" "z" (.Number 0)) =
      .error (.rustPanic "not yet implemented: Batch shell compilation for binary expressions not implemented yet") := by
  rfl

/-- C2 (amended): under an int type tag, Bash compilation of `x < y` emits
`$x -lt $y`; Batch compilation of the same expression panics in the
unimplemented binary-expression arm instead of emitting a fragment, even
though `format_operator` alone renders the operator as `LSS` — so the
`%%x%% LSS %%y%%` shape appears only where binary expressions are rendered
directly, in raw-instruction position. -/
theorem less_than_int_rendering :
    (∀ (fuel : Nat) (x y : String) (c : Compiler) (parent : Stmt), c.shell = .Bash →
      get_condition_type parent = .ok "int" →
      compile_expr (fuel + 2) c (.Binary (.Identifier x) .LessThan (.Identifier y)) parent =
        .ok ("$" ++ x ++ " " ++ "-lt" ++ " " ++ ("$" ++ y))) ∧
    (∀ (fuel : Nat) (x y : String) (c : Compiler) (parent : Stmt), c.shell = .Batch →
      get_condition_type parent = .ok "int" →
      compile_expr (fuel + 2) c (.Binary (.Identifier x) .LessThan (.Identifier y)) parent =
        .error (.rustPanic "not yet implemented: Batch shell compilation for binary expressions not implemented yet")) ∧
    (∀ (c : Compiler) (parent : Stmt), c.shell = .Batch →
      get_condition_type parent = .ok "int" →
      format_operator c .LessThan parent = .ok "LSS") ∧
    (∀ fuel : Nat,
      compile_raw_instruction (fuel + 1)
          ⟨[.If "int" (.Identifier "w") [] none], 0, .Windows, .Batch⟩
          [.Binary (.Identifier "x") .LessThan (.Identifier "y")] =
        .ok "%%x%% LSS %%y%% \n") := by
  refine ⟨?_, ?_, ?_, ?_⟩
  · intro fuel x y c parent hsh hct
    obtain ⟨st, pos, os, sh⟩ := c
    obtain rfl : sh = .Bash := hsh
    cases parent <;>
      first
        | exact Except.noConfusion hct
        | (obtain rfl := Except.ok.inj hct; rfl)
  · intro fuel x y c parent hsh hct
    obtain ⟨st, pos, os, sh⟩ := c
    obtain rfl : sh = .Batch := hsh
    cases parent <;>
      first
        | exact Except.noConfusion hct
        | (obtain rfl := Except.ok.inj hct; rfl)
  · intro c parent hsh hct
    obtain ⟨st, pos, os, sh⟩ := c
    obtain rfl : sh = .Batch := hsh
    cases parent <;>
      first
        | exact Except.noConfusion hct
        | (obtain rfl := Except.ok.inj hct; rfl)
  · intro fuel
    rfl

/-- Witness for C2 at concrete inputs: Bash rendering of `x < y` under an
int-tagged parent, and the Batch `LSS` rendering from `format_operator`. -/
theorem less_than_int_rendering_witness :
    compile_expr 2 ⟨[], 0, .Linux, .Bash⟩
        (.Binary (.Identifier "x") .LessThan (.Identifier "y")) (.Let "int" "z" (.Number 0)) =
      .ok "$x -lt $y" ∧
    format_operator ⟨[], 0, .Windows, .Batch⟩ .LessThan (.Let "int" "z" (.Number 0)) = .ok "LSS" :=
  ⟨(less_than_int_rendering.1 0 "x" "y" ⟨[], 0, .Linux, .Bash⟩ (.Let "int" "z" (.Number 0)) rfl rfl).trans
     (by rfl),
   less_than_int_rendering.2.2.1 ⟨[], 0, .Windows, .Batch⟩ (.Let "int" "z" (.Number 0)) rfl rfl⟩

/-- C3 counterexample: a raw instruction nested inside a `While "str"` block
that itself sits inside a top-level `If "int"` renders its `==` with the
top-level statement's int tag (`-eq`), not with the nearest enclosing typed
statement's str tag (which would give `==`). -/
theorem raw_instruction_tag_counterexample :
    compileProgram [.If "int" (.Identifier "c")
        [.While "str" (.Identifier "d")
          [.RawInstruction [.Binary (.Identifier "x") .Equal (.Identifier "y")]]] none]
      .Linux .Bash =
      .ok "if [[ $c ]]; then\nwhile [[ $d ]]; do\n$x -eq $y \ndone\nfi\n" := by
  rfl

/-- C3 (amended): expression subtrees of a statement's own expressions use
that statement's tag through the threaded parent statement, but a
`RawInstruction` looks up `current_statement` — the top-level statement at
the compiler's position — so its operators are rendered with the top-level
statement's tag regardless of the tag `t2` of the nearest enclosing typed
statement. -/
theorem raw_instruction_uses_top_level_tag :
    ∀ t2 : String,
      compileProgram [.If "int" (.Identifier "c")
          [.While t2 (.Identifier "d")
            [.RawInstruction [.Binary (.Identifier "x") .Equal (.Identifier "y")]]] none]
        .Linux .Bash =
        .ok "if [[ $c ]]; then\nwhile [[ $d ]]; do\n$x -eq $y \ndone\nfi\n" := by
  intro t2
  rfl

/-- C4 counterexample: an equality under a str tag compiled to Bash emits
the quoted concatenation of the operands with no operator at all — the
fragment contains no `=` character anywhere. -/
theorem str_equality_operator_dropped_counterexample :
    compile_expr 1000 ⟨[], 0, .Linux, .Bash⟩
        (.Binary (.Identifier "a") .Equal (.Identifier "b")) (.Let "str" "s" (.Number 0)) =
      .ok "\"$a$b\"" ∧ Char.ofNat 61 ∉ "\"$a$b\"".data := by
  refine ⟨by rfl, by decide⟩

/-- C4 (amended): under a str tag in Bash, `compile_expr` renders every
equality/relational binary expression as the quoted concatenation
`"leftright"` of the two compiled operands, with no operator between them;
`format_operator` does map the four operators to `==`, `!=`, `<`, `>` as
the table says, but that rendering is discarded on this path. -/
theorem str_binary_quoted_concatenation :
    ∀ (fuel : Nat) (x y : String) (c : Compiler) (parent : Stmt), c.shell = .Bash →
      get_condition_type parent = .ok "str" →
      (compile_expr (fuel + 2) c (.Binary (.Identifier x) .Equal (.Identifier y)) parent =
          .ok ("\"" ++ ("$" ++ x) ++ ("$" ++ y) ++ "\"")) ∧
      (compile_expr (fuel + 2) c (.Binary (.Identifier x) .NotEqual (.Identifier y)) parent =
          .ok ("\"" ++ ("$" ++ x) ++ ("$" ++ y) ++ "\"")) ∧
      (compile_expr (fuel + 2) c (.Binary (.Identifier x) .LessThan (.Identifier y)) parent =
          .ok ("\"" ++ ("$" ++ x) ++ ("$" ++ y) ++ "\"")) ∧
      (compile_expr (fuel + 2) c (.Binary (.Identifier x) .GreaterThan (.Identifier y)) parent =
          .ok ("\"" ++ ("$" ++ x) ++ ("$" ++ y) ++ "\"")) ∧
      format_operator c .Equal parent = .ok "==" ∧
      format_operator c .NotEqual parent = .ok "!=" ∧
      format_operator c .LessThan parent = .ok "<" ∧
      format_operator c .GreaterThan parent = .ok ">" := by
  intro fuel x y c parent hsh hct
  obtain ⟨st, pos, os, sh⟩ := c
  obtain rfl : sh = .Bash := hsh
  cases parent <;>
    first
      | exact Except.noConfusion hct
      | (obtain rfl := Except.ok.inj hct;
         exact ⟨rfl, rfl, rfl, rfl, rfl, rfl, rfl, rfl⟩)

/-- Witness for C4 at concrete inputs: the quoted concatenation for `a == b`
under a str-tagged parent, and the `>` rendering from `format_operator`. -/
theorem str_binary_quoted_concatenation_witness :
    compile_expr 2 ⟨[], 0, .Linux, .Bash⟩
        (.Binary (.Identifier "a") .Equal (.Identifier "b")) (.If "str" (.Number 1) [] none) =
      .ok "\"$a$b\"" ∧
    format_operator ⟨[], 0, .Linux, .Bash⟩ .GreaterThan (.If "str" (.Number 1) [] none) = .ok ">" :=
  ⟨((str_binary_quoted_concatenation 0 "a" "b" ⟨[], 0, .Linux, .Bash⟩
       (.If "str" (.Number 1) [] none) rfl rfl).1).trans (by rfl),
   (str_binary_quoted_concatenation 0 "a" "b" ⟨[], 0, .Linux, .Bash⟩
       (.If "str" (.Number 1) [] none) rfl rfl).2.2.2.2.2.2.2⟩

/-- C7: a `with linux { body }` statement compiled with configured target OS
Windows contributes the empty string with no error, for every body; compiled
with target OS Linux it contributes exactly the concatenated compilation of
the body's statements (`compileSeq`). -/
theorem with_linux_os_dispatch :
    (∀ (fuel : Nat) (c : Compiler) (body : List Stmt), c.os = .Windows →
      compile_statement (fuel + 2) c (.With .Linux body) = .ok "") ∧
    (∀ (fuel : Nat) (c : Compiler) (body : List Stmt), c.os = .Linux →
      compile_statement (fuel + 2) c (.With .Linux body) = compileSeq fuel c body) := by
  constructor
  · rintro fuel ⟨st, pos, os, sh⟩ body h
    obtain rfl : os = .Windows := h
    rfl
  · rintro fuel ⟨st, pos, os, sh⟩ body h
    obtain rfl : os = .Linux := h
    rfl

/-- Witness for C7 at a concrete body: dropped under Windows, and equal to
the body's compilation (`x=$y`) under Linux. -/
theorem with_linux_os_dispatch_witness :
    compile_statement 2 (Compiler.new [] .Windows .Bash)
      (.With .Linux [.Let "int" "x" (.Identifier "y")]) = .ok "" ∧
    compile_statement 5 (Compiler.new [] .Linux .Bash)
      (.With .Linux [.Let "int" "x" (.Identifier "y")]) =
      compileSeq 3 (Compiler.new [] .Linux .Bash) [.Let "int" "x" (.Identifier "y")] ∧
    compileSeq 3 (Compiler.new [] .Linux .Bash) [.Let "int" "x" (.Identifier "y")] =
      .ok "x=$y\n" :=
  ⟨with_linux_os_dispatch.1 0 _ _ rfl, with_linux_os_dispatch.2 3 _ _ rfl, by rfl⟩

/-- C10: a `With` statement whose declared OS differs from the configured
target OS compiles to `ok ""` for every body — the body is never compiled,
so a body whose compilation would fail is silently suppressed. -/
theorem nonmatching_with_block_suppressed :
    ∀ (fuel : Nat) (c : Compiler) (os' : OS) (body : List Stmt), os' ≠ c.os →
      compile_statement (fuel + 2) c (.With os' body) = .ok "" := by
  rintro fuel ⟨st, pos, os, sh⟩ os' body h
  cases os <;> cases os' <;>
    first
      | exact absurd rfl h
      | rfl

/-- Witness for C10: a `with linux` block around a Batch-untranslatable
function declaration compiles to `ok ""` under Windows, although compiling
the body itself panics. -/
theorem nonmatching_with_block_suppressed_witness :
    compile_statement 2 (Compiler.new [] .Windows .Batch)
      (.With .Linux [.Function "f" none []]) = .ok "" ∧
    compileSeq 3 (Compiler.new [] .Windows .Batch) [.Function "f" none []] =
      .error (.rustPanic "not yet implemented: Batch shell compilation for functions not implemented yet") :=
  ⟨nonmatching_with_block_suppressed 0 _ _ _ (by decide), by rfl⟩

end Rosella
